import Mathlib

/-!
Shallow embedding of `sbatch.py`: a generator of Slurm job-submission
scripts.  Python strings are modelled as Lean `String` (slicing goes
through `List Char`), the filesystem-existence probe `Path(...).is_file()`
is a parameter `fs : String → Bool`, the unbounded `while` loop carries
explicit fuel, and Python runtime errors surface as `Except`.
-/

namespace Sbatch

/-- Runtime outcomes of `createTempFileName` that are not a returned path:
`unboundLocal` models Python's `UnboundLocalError` (raised when the input
has no `'.'`, because the branch at line 14 sets `temp_type = ''` but never
assigns `ret_file_name`, which line 22 then reads); `fuelExhausted` models
a probe loop that has not exited within the given fuel (in Python the loop
would still be running). -/
inductive NameErr where
  | unboundLocal
  | fuelExhausted
deriving DecidableEq

/-- Python `getLastDot`'s loop `for i in reversed(range(n))`: scan indices
`n-1, …, 0` and return the first (i.e. largest) index holding `'.'`, else `-1`. -/
def getLastDotFrom (s : List Char) : Nat → Int
  | 0 => -1
  | n + 1 => if s.get? n = some '.' then (n : Int) else getLastDotFrom s n

/-- Python `getLastDot(U_str)`: index of the last `'.'` in the string, `-1` if none. -/
def getLastDot (U_str : String) : Int :=
  getLastDotFrom U_str.toList U_str.toList.length

/-- The code's local `ret_file_name = temp_file_name[:i_dot]`: everything
strictly before the last dot. -/
def stemOf (temp_file_name : String) : String :=
  (temp_file_name.toList.take (getLastDot temp_file_name).toNat).asString

/-- The code's local `temp_type = temp_file_name[(i_dot - l):]`: since
`0 ≤ i_dot < l`, the negative index `i_dot - l` addresses position `i_dot`,
so this is the slice from the last dot (inclusive) to the end. -/
def extOf (temp_file_name : String) : String :=
  (temp_file_name.toList.drop (getLastDot temp_file_name).toNat).asString

/-- The `while Path(ret_file_name + temp_suffix + temp_type).is_file():` loop of
`createTempFileName`, with state `(temp_number, temp_suffix)` exactly as in the
Python source: on a hit, increment the counter and set the suffix to
`'_' + repr(temp_number)`; on a miss, return the probed candidate. -/
def findSuffix (fs : String → Bool) (ret_file_name temp_type : String) :
    Nat → Nat → String → Except NameErr String
  | 0, _, _ => .error .fuelExhausted
  | fuel + 1, temp_number, temp_suffix =>
    if fs (ret_file_name ++ temp_suffix ++ temp_type) then
      findSuffix fs ret_file_name temp_type fuel (temp_number + 1)
        ("_" ++ toString (temp_number + 1))
    else .ok (ret_file_name ++ temp_suffix ++ temp_type)

/-- Python `createTempFileName(temp_file_name)`.  With `i_dot = getLastDot(...)`:
when `i_dot == -1` the function crashes with `UnboundLocalError` (see `NameErr`);
otherwise `temp_type = temp_file_name[(i_dot - l):]` (the slice from the last dot
on, dot included) and `ret_file_name = temp_file_name[:i_dot]`, after which the
probe loop runs starting from `temp_number = 0`, `temp_suffix = ''`. -/
def createTempFileName (fs : String → Bool) (fuel : Nat) (temp_file_name : String) :
    Except NameErr String :=
  if getLastDot temp_file_name = -1 then
    .error .unboundLocal
  else
    findSuffix fs (stemOf temp_file_name) (extOf temp_file_name) fuel 0 ""

/-- The values that appear in the `argsDict` passed to `build_args`:
Python booleans, strings, and—as the representative of "any other printable
value" dispatched to the `else` branch—integers, whose `repr` is their
decimal rendering. -/
inductive PyVal where
  | bool (b : Bool)
  | str (s : String)
  | int (n : Int)
deriving DecidableEq

/-- Python `repr` for the values reaching the `else` branch of `build_args`. -/
def pyRepr : PyVal → String
  | .bool b => if b then "True" else "False"
  | .str s => s
  | .int n => toString n

/-- One step of the `for name, key in argsDict.items()` loop body of
`build_args` (lines 32–40): `isinstance(key, bool)` keeps only true flags,
`isinstance(key, str)` keeps only non-empty strings, anything else is
rendered with `repr`. -/
def build_argsStep (lstArgs : String) (nk : String × PyVal) : String :=
  match nk.2 with
  | .bool b => if b then lstArgs ++ " --" ++ nk.1 else lstArgs
  | .str s => if s ≠ "" then lstArgs ++ " --" ++ nk.1 ++ "=" ++ s else lstArgs
  | .int n => lstArgs ++ " --" ++ nk.1 ++ "=" ++ pyRepr (.int n)

/-- Python `build_args(argsDict)`: fold the loop body over the dict's entries
in insertion order, starting from the empty accumulator `lstArgs = ''`. -/
def build_args (argsDict : List (String × PyVal)) : String :=
  argsDict.foldl build_argsStep ""

/-- Whether the character list `s` starts with `pat` (`beginsWith s pat`). -/
def beginsWith : List Char → List Char → Bool
  | _, [] => true
  | [], _ :: _ => false
  | c :: s, p :: ps => c == p && beginsWith s ps

/-- Whether `pat` occurs contiguously inside `s` (`containsSeq s pat`,
Python's `pat in s` on strings). -/
def containsSeq : List Char → List Char → Bool
  | [], pat => beginsWith [] pat
  | c :: s, pat => beginsWith (c :: s) pat || containsSeq s pat

/-- Python `pat in s` for strings. -/
def pyIn (pat s : String) : Bool := containsSeq s.toList pat.toList

/-- The `runOpt` dictionary: the keys `launch_exp` and the builders read. -/
structure RunOpt where
  interactive : Bool
  env_name : String
  command : String
  script : String
  temp_file : String
deriving DecidableEq

/-- Lines 56–58 of `build_sbatch` (repeated at 77–79 in `build_srun`):
`str_args = build_args(argsDict)`, then if `'ipython' in runOpt['command']`,
`str_args = ' --' + str_args`. -/
def str_args (command : String) (argsDict : List (String × PyVal)) : String :=
  let a := build_args argsDict
  if pyIn "ipython" command then " --" ++ a else a

/-- The invocation line written by both builders (line 59 / line 80), without
its trailing newline: `runOpt['command'] + ' ' + runOpt['script'] + str_args`. -/
def invocationLine (runOpt : RunOpt) (argsDict : List (String × PyVal)) : String :=
  runOpt.command ++ " " ++ runOpt.script ++ str_args runOpt.command argsDict

/-- The sequence of `f_sbatch.write(...)` calls made by `build_sbatch`
(lines 48–61), in order. -/
def build_sbatchWrites (runOpt : RunOpt) (sbatchOpt : List String)
    (argsDict : List (String × PyVal)) : List String :=
  ["#!/bin/bash\n\n"]
    ++ sbatchOpt.map (fun opt => "#SBATCH " ++ opt ++ "\n")
    ++ ["\n"]
    ++ ["source activate " ++ runOpt.env_name ++ "\n"]
    ++ [invocationLine runOpt argsDict ++ "\n"]
    ++ ["source deactivate " ++ runOpt.env_name ++ "\n"]

/-- The full text `build_sbatch` leaves in the script file. -/
def build_sbatchContent (runOpt : RunOpt) (sbatchOpt : List String)
    (argsDict : List (String × PyVal)) : String :=
  String.join (build_sbatchWrites runOpt sbatchOpt argsDict)

/-- The sequence of `f_sbatch.write(...)` calls made by `build_srun`
(lines 74–82), in order: no scheduler-directive lines and no separator
blank line, otherwise the same writes as `build_sbatch`. -/
def build_srunWrites (runOpt : RunOpt) (argsDict : List (String × PyVal)) :
    List String :=
  ["#!/bin/bash\n\n"]
    ++ ["source activate " ++ runOpt.env_name ++ "\n"]
    ++ [invocationLine runOpt argsDict ++ "\n"]
    ++ ["source deactivate " ++ runOpt.env_name ++ "\n"]

/-- The full text `build_srun` leaves in the script file. -/
def build_srunContent (runOpt : RunOpt) (argsDict : List (String × PyVal)) : String :=
  String.join (build_srunWrites runOpt argsDict)

/-- Lines 66–69 of `build_srun`: `command_srun = 'srun'`, then
`command_srun += ' ' + opt` for each directive, then `+= ' --pty bash'`. -/
def command_srun (sbatchOpt : List String) : String :=
  (sbatchOpt.foldl (fun c opt => c ++ " " ++ opt) "srun") ++ " --pty bash"

/-- Observable actions of a run of the tool, in program order.
`spawned argv outPiped errPiped` records a `subprocess.Popen(argv, ...)` call
and whether its stdout/stderr were redirected to pipes (`subprocess.PIPE`);
`printedOut`/`printedErr` record the string handed to `print(...)` (which then
appends its own newline) on `sys.stdout`/`sys.stderr`. -/
inductive Effect where
  | wroteFile (path content : String)
  | spawned (argv : List String) (stdoutPiped stderrPiped : Bool)
  | printedOut (s : String)
  | printedErr (s : String)
deriving DecidableEq

/-- Helper for `pySplit`: walk the characters keeping the (reversed) current
token; whitespace closes the token, and empty tokens are not emitted. -/
def pySplitAux : List Char → List Char → List String
  | [], acc => if acc = [] then [] else [acc.reverse.asString]
  | c :: cs, acc =>
    if c.isWhitespace then
      if acc = [] then pySplitAux cs []
      else acc.reverse.asString :: pySplitAux cs []
    else pySplitAux cs (c :: acc)

/-- Python `str.split()` with no separator: split on whitespace runs,
discarding empty pieces. -/
def pySplit (s : String) : List String := pySplitAux s.toList []

/-- Helper for `linesOf`: split at each newline character, keeping empty
pieces (so `n` newlines yield `n + 1` pieces). -/
def splitNlAux : List Char → List Char → List String
  | [], acc => [acc.reverse.asString]
  | c :: cs, acc =>
    if c = '\n' then acc.reverse.asString :: splitNlAux cs []
    else splitNlAux cs (c :: acc)

/-- The lines of a text, i.e. the pieces between newline characters. -/
def linesOf (s : String) : List String := splitNlAux s.toList []

/-- Python `str.strip()` with no argument: remove whitespace from both ends. -/
def pyStrip (s : String) : String :=
  ((s.toList.dropWhile Char.isWhitespace).reverse.dropWhile
    Char.isWhitespace).reverse.asString

/-- Model of `Popen(...).communicate()`: a stream redirected to `subprocess.PIPE` is
captured and returned (as a bytes object, possibly empty); a stream that was
not redirected is inherited by the child — it flows straight to the caller's
terminal — and `communicate()` returns `None` for it. -/
def communicate (stdoutPiped stderrPiped : Bool) (childOut childErr : String) :
    Option String × Option String :=
  (if stdoutPiped then some childOut else none,
   if stderrPiped then some childErr else none)

/-- Python `build_sbatch(runOpt, sbatchOpt, argsDict)`: resolve the temp-file
name (mutating `runOpt['temp_file']`), then write the script.  Returns the
updated `runOpt` and the file-write effect. -/
def build_sbatch (fs : String → Bool) (fuel : Nat) (runOpt : RunOpt)
    (sbatchOpt : List String) (argsDict : List (String × PyVal)) :
    Except NameErr (RunOpt × List Effect) :=
  match createTempFileName fs fuel runOpt.temp_file with
  | .error e => .error e
  | .ok tf =>
    let r := { runOpt with temp_file := tf }
    .ok (r, [Effect.wroteFile tf (build_sbatchContent r sbatchOpt argsDict)])

/-- Python `build_srun(runOpt, sbatchOpt, argsDict)`: build the `srun`
command string, resolve the temp-file name, write the script, and return
(updated `runOpt`, `command_srun`, effects). -/
def build_srun (fs : String → Bool) (fuel : Nat) (runOpt : RunOpt)
    (sbatchOpt : List String) (argsDict : List (String × PyVal)) :
    Except NameErr (RunOpt × String × List Effect) :=
  match createTempFileName fs fuel runOpt.temp_file with
  | .error e => .error e
  | .ok tf =>
    let r := { runOpt with temp_file := tf }
    .ok (r, command_srun sbatchOpt,
      [Effect.wroteFile tf (build_srunContent r argsDict)])

/-- Python `launch_exp(runOpt, sbatchOpt, argsDict)`.  `childOut`/`childErr`
are what the spawned child writes on its stdout/stderr.  Both branches call
`subprocess.Popen(cmd.split(), stdout=subprocess.PIPE)` — stdout piped,
stderr NOT piped — so `communicate()` returns `(captured stdout, None)`:
`output` is `some childOut` (a bytes object, possibly empty) and `error` is
`none`.  The batch branch then prints `str(output,'utf-8').strip()` whenever
`output` is not `None`, and would print `error` likewise, but `error` always
is `None`; the interactive branch prints the notice before spawning and
discards the captured output. -/
def launch_exp (fs : String → Bool) (fuel : Nat) (childOut childErr : String)
    (runOpt : RunOpt) (sbatchOpt : List String)
    (argsDict : List (String × PyVal)) : Except NameErr (List Effect) :=
  if runOpt.interactive then
    match build_srun fs fuel runOpt sbatchOpt argsDict with
    | .error e => .error e
    | .ok (r, cmd, effs) =>
      .ok (effs
        ++ [Effect.printedOut ("Interactive job to launch: " ++ r.temp_file ++ "\n")]
        ++ [Effect.spawned (pySplit cmd) true false])
  else
    match build_sbatch fs fuel runOpt sbatchOpt argsDict with
    | .error e => .error e
    | .ok (r, effs) =>
      let bashCMD := "sbatch " ++ r.temp_file
      let oe := communicate true false childOut childErr
      .ok (effs
        ++ [Effect.spawned (pySplit bashCMD) true false]
        ++ (match oe.1 with
            | some o => [Effect.printedOut (pyStrip o)]
            | none => [])
        ++ (match oe.2 with
            | some e => [Effect.printedErr (pyStrip e)]
            | none => []))

/-- The suffix string the probe loop carries when its counter is `n`:
empty for `n = 0`, and `'_' + repr(n)` afterwards.  This is an invariant of
the loop state `(temp_number, temp_suffix)`, used to phrase its correctness. -/
def suffixStr : Nat → String
  | 0 => ""
  | n + 1 => "_" ++ toString (n + 1)

/-- The `n`-th candidate path the probe loop tests:
`ret_file_name + temp_suffix + temp_type` with counter `n`. -/
def cand (ret_file_name temp_type : String) (n : Nat) : String :=
  ret_file_name ++ suffixStr n ++ temp_type

/-- Concatenation of a list of strings, in order, used to state serialized
forms of the accumulator loops. -/
def concatStrs : List String → String
  | [] => ""
  | s :: rest => s ++ concatStrs rest

/-- Spec-side definition (section 4.2 of the spec, stated from the spec's
words for comparison with `build_args`): the fragment one entry emits — a
true boolean yields a space-prefixed flag, a false boolean nothing, a
non-empty string a space-prefixed key=value pair, an empty string nothing,
and any other printable value a space-prefixed key=representation pair. -/
def fragmentOfEntry (name : String) (v : PyVal) : String :=
  match v with
  | .bool b => if b then " --" ++ name else ""
  | .str s => if s = "" then "" else " --" ++ name ++ "=" ++ s
  | .int n => " --" ++ name ++ "=" ++ toString n

instance {ε α : Type} [DecidableEq ε] [DecidableEq α] : DecidableEq (Except ε α) :=
  fun a b =>
    match a, b with
    | .error x, .error y =>
      if h : x = y then .isTrue (congrArg Except.error h)
      else .isFalse (fun c => h (Except.error.inj c))
    | .ok x, .ok y =>
      if h : x = y then .isTrue (congrArg Except.ok h)
      else .isFalse (fun c => h (Except.ok.inj c))
    | .error _, .ok _ => .isFalse (fun c => Except.noConfusion c)
    | .ok _, .error _ => .isFalse (fun c => Except.noConfusion c)

/-- The effect trace of a batch launch whose temp file is free, with no
scheduler directives, no arguments, and a child that writes nothing on
stdout and `boom` on stderr. -/
def batchEmptyOutTrace : List Effect :=
  [Effect.wroteFile "job.sh"
      "#!/bin/bash\n\n\nsource activate env1\npython train.py\nsource deactivate env1\n",
   Effect.spawned ["sbatch", "job.sh"] true false,
   Effect.printedOut ""]

/-! ## Helper lemmas -/

theorem asString_toList (s : String) : s.toList.asString = s := rfl

theorem asString_append (a b : List Char) : (a ++ b).asString = a.asString ++ b.asString := rfl

theorem stemOf_append_extOf (s : String) : stemOf s ++ extOf s = s := by
  unfold stemOf extOf
  rw [← asString_append, List.take_append_drop, asString_toList]

theorem getLastDotFrom_ne_neg_one (s : List Char) :
    ∀ (n i : Nat), i < n → s.get? i = some '.' → getLastDotFrom s n ≠ -1 := by
  intro n
  induction n with
  | zero => intro i hi _; omega
  | succ n ih =>
    intro i hi hdot
    unfold getLastDotFrom
    by_cases hn : s.get? n = some '.'
    · rw [if_pos hn]
      intro hc
      omega
    · rw [if_neg hn]
      apply ih i _ hdot
      have : i ≠ n := fun he => hn (he ▸ hdot)
      omega

theorem getLastDot_ne_neg_one_of_mem (p : String) (h : '.' ∈ p.toList) :
    getLastDot p ≠ -1 := by
  obtain ⟨i, hi⟩ := List.mem_iff_get?.mp h
  have hlt : i < p.toList.length := by
    by_contra hge
    rw [List.get?_eq_none.mpr (by omega)] at hi
    exact Option.noConfusion hi
  exact getLastDotFrom_ne_neg_one p.toList p.toList.length i hlt hi

theorem findSuffix_ok (fs : String → Bool) (ret_file_name temp_type : String) :
    ∀ (fuel temp_number : Nat) (r : String),
      findSuffix fs ret_file_name temp_type fuel temp_number (suffixStr temp_number) = .ok r →
      ∃ n, temp_number ≤ n ∧ r = cand ret_file_name temp_type n ∧
        fs (cand ret_file_name temp_type n) = false ∧
        ∀ m, temp_number ≤ m → m < n → fs (cand ret_file_name temp_type m) = true := by
  intro fuel
  induction fuel with
  | zero =>
    intro k r h
    exact absurd h (by simp [findSuffix])
  | succ fuel ih =>
    intro k r h
    unfold findSuffix at h
    by_cases hfs : fs (ret_file_name ++ suffixStr k ++ temp_type) = true
    · rw [if_pos hfs] at h
      have h' : findSuffix fs ret_file_name temp_type fuel (k + 1) (suffixStr (k + 1)) = .ok r := h
      obtain ⟨n, hkn, hr, hn, hmin⟩ := ih (k + 1) r h'
      refine ⟨n, by omega, hr, hn, fun m hkm hmn => ?_⟩
      rcases Nat.eq_or_lt_of_le hkm with he | hl
      · rw [← he]; exact hfs
      · exact hmin m hl hmn
    · rw [if_neg hfs] at h
      have hr : ret_file_name ++ suffixStr k ++ temp_type = r := Except.ok.inj h
      refine ⟨k, Nat.le_refl k, hr.symm, by simpa [cand] using hfs, fun m h1 h2 => ?_⟩
      omega

theorem createTempFileName_ok (fs : String → Bool) (fuel : Nat) (name r : String)
    (h : createTempFileName fs fuel name = .ok r) :
    ∃ n, r = cand (stemOf name) (extOf name) n ∧
      fs (cand (stemOf name) (extOf name) n) = false ∧
      ∀ m, m < n → fs (cand (stemOf name) (extOf name) m) = true := by
  unfold createTempFileName at h
  by_cases hd : getLastDot name = -1
  · rw [if_pos hd] at h
    exact Except.noConfusion h
  · rw [if_neg hd] at h
    obtain ⟨n, _, hr, hn, hmin⟩ :=
      findSuffix_ok fs (stemOf name) (extOf name) fuel 0 r h
    exact ⟨n, hr, hn, fun m hm => hmin m (Nat.zero_le m) hm⟩

theorem getLastDot_concat_dot (t : List Char) :
    getLastDot (t ++ ['.']).asString = (t.length : Int) := by
  unfold getLastDot
  have h1 : (t ++ ['.']).asString.toList = t ++ ['.'] := rfl
  rw [h1]
  have h2 : (t ++ ['.']).length = t.length + 1 := by simp
  rw [h2]
  unfold getLastDotFrom
  have hget : (t ++ ['.']).get? t.length = some '.' := by
    rw [List.get?_eq_getElem?, List.getElem?_concat_length]
  rw [if_pos hget]

theorem extOf_concat_dot (t : List Char) : extOf (t ++ ['.']).asString = "." := by
  unfold extOf
  rw [getLastDot_concat_dot]
  have h1 : (t ++ ['.']).asString.toList = t ++ ['.'] := rfl
  rw [h1]
  have h2 : ((t.length : Int)).toNat = t.length := Int.toNat_natCast t.length
  rw [h2, List.drop_left]
  decide

theorem stemOf_concat_dot (t : List Char) : stemOf (t ++ ['.']).asString = t.asString := by
  unfold stemOf
  rw [getLastDot_concat_dot]
  have h1 : (t ++ ['.']).asString.toList = t ++ ['.'] := rfl
  rw [h1, Int.toNat_natCast, List.take_left]

theorem build_argsStep_eq (acc : String) (nk : String × PyVal) :
    build_argsStep acc nk = acc ++ fragmentOfEntry nk.1 nk.2 := by
  rcases nk with ⟨name, v⟩
  cases v with
  | bool b => cases b <;> simp [build_argsStep, fragmentOfEntry, String.append_assoc]
  | str s =>
    by_cases h : s = "" <;>
      simp [build_argsStep, fragmentOfEntry, h, String.append_assoc]
  | int n => simp [build_argsStep, fragmentOfEntry, pyRepr, String.append_assoc]

theorem build_args_foldl (l : List (String × PyVal)) :
    ∀ acc, l.foldl build_argsStep acc
      = acc ++ concatStrs (l.map fun p => fragmentOfEntry p.1 p.2) := by
  induction l with
  | nil => intro acc; simp [concatStrs]
  | cons hd tl ih =>
    intro acc
    simp only [List.foldl_cons, List.map_cons, concatStrs, ih, build_argsStep_eq,
      String.append_assoc]

theorem command_srun_foldl (l : List String) :
    ∀ acc, l.foldl (fun c opt => c ++ " " ++ opt) acc
      = acc ++ concatStrs (l.map fun opt => " " ++ opt) := by
  induction l with
  | nil => intro acc; simp [concatStrs]
  | cons hd tl ih =>
    intro acc
    rw [List.foldl_cons, ih]
    simp [concatStrs, String.append_assoc]

theorem drop_two_plus (x y : String) (m rest : List String) :
    List.drop (2 + m.length) (x :: (m ++ y :: rest)) = rest := by
  have h1 : 2 + m.length = (m.length + 1) + 1 := by omega
  rw [h1, List.drop_succ_cons]
  have h2 : m ++ y :: rest = (m ++ [y]) ++ rest := by simp
  have h3 : m.length + 1 = (m ++ [y]).length := by simp
  rw [h2, h3, List.drop_left]

theorem build_srunWrites_eq (r : RunOpt) (sOpt : List String)
    (args : List (String × PyVal)) :
    build_srunWrites r args
      = "#!/bin/bash\n\n" :: (build_sbatchWrites r sOpt args).drop (2 + sOpt.length) := by
  have h := drop_two_plus "#!/bin/bash\n\n" "\n"
    (sOpt.map fun opt => "#SBATCH " ++ opt ++ "\n")
    ["source activate " ++ r.env_name ++ "\n", invocationLine r args ++ "\n",
     "source deactivate " ++ r.env_name ++ "\n"]
  simp only [List.length_map] at h
  unfold build_srunWrites build_sbatchWrites
  simp only [List.append_assoc, List.singleton_append, List.cons_append, List.nil_append]
  rw [h]

/-! ## Claim theorems -/

/-- C2: the claim says `createTempFileName` never raises, treating a dotless
input as stem = whole input, extension = empty.  The code instead crashes:
with no `'.'` the branch at line 14 sets `temp_type = ''` but never assigns
`ret_file_name`, so the loop condition at line 22 raises `UnboundLocalError`.
This theorem evaluates the embedding at the failing input `"myfile"` (with no
file existing anywhere): the result is the unbound-local error, not a path. -/
theorem no_dot_unbound_local :
    createTempFileName (fun _ => false) 1 "myfile" = .error .unboundLocal := by
  decide

/-- C3 counterexample: the claim quantifies over every path with no existing
file, but on the dotless path `"script"` (no file exists anywhere) the code
raises `UnboundLocalError` instead of returning `"script"` unchanged. -/
theorem resolve_no_dot_errors_cex :
    createTempFileName (fun _ => false) 4 "script" = .error .unboundLocal := by
  decide

/-- C3 (amended): for every path that contains at least one `'.'` and at which
no file exists at probe time, `createTempFileName` returns the path unchanged. -/
theorem resolve_fresh_dotted_identity (fs : String → Bool) (fuel : Nat) (p : String)
    (hdot : '.' ∈ p.toList) (hfree : fs p = false) :
    createTempFileName fs (fuel + 1) p = .ok p := by
  unfold createTempFileName
  rw [if_neg (getLastDot_ne_neg_one_of_mem p hdot)]
  unfold findSuffix
  simp [stemOf_append_extOf, hfree]

/-- Witness for C3's amended theorem at `"job.sh"` on an empty filesystem. -/
theorem resolve_fresh_dotted_identity_witness :
    createTempFileName (fun _ => false) 1 "job.sh" = .ok "job.sh" :=
  resolve_fresh_dotted_identity (fun _ => false) 0 "job.sh" (by decide) rfl

/-- C4 counterexample: the claim quantifies over every path, but on the
dotless path `"nodot"` the code raises `UnboundLocalError` and returns no
path at all, colliding or not. -/
theorem resolve_suffix_no_dot_cex :
    createTempFileName (fun _ => false) 3 "nodot" = .error .unboundLocal := by
  decide

/-- C4 (amended): whenever `createTempFileName` returns a path (so the input
had a `'.'` and the probe loop exited), the returned path does not exist at
probe time, and it is the candidate `stem ++ suffix ++ ext` for the first
unused counter value (counter `0` meaning no suffix, counter `n > 0` meaning
`_n`): every earlier candidate exists.  Concretely, when both `job.sh` and
`job_1.sh` pre-exist, `job_2.sh` is returned. -/
theorem resolve_first_unused_suffix :
    (∀ (fs : String → Bool) (fuel : Nat) (name r : String),
        createTempFileName fs fuel name = .ok r →
        fs r = false ∧ ∃ n, r = cand (stemOf name) (extOf name) n ∧
          ∀ m, m < n → fs (cand (stemOf name) (extOf name) m) = true)
    ∧ createTempFileName (fun s => s == "job.sh" || s == "job_1.sh") 5 "job.sh"
        = .ok "job_2.sh" := by
  constructor
  · intro fs fuel name r h
    obtain ⟨n, hr, hn, hmin⟩ := createTempFileName_ok fs fuel name r h
    exact ⟨hr ▸ hn, n, hr, hmin⟩
  · decide

/-- Witness for C4's amended theorem: the filesystem holding exactly
`job.sh` and `job_1.sh`, probed with `job.sh`, yielding `job_2.sh`. -/
theorem resolve_first_unused_suffix_witness :
    (fun s => s == "job.sh" || s == "job_1.sh") "job_2.sh" = false
      ∧ ∃ n, "job_2.sh" = cand (stemOf "job.sh") (extOf "job.sh") n
        ∧ ∀ m, m < n → (fun s => s == "job.sh" || s == "job_1.sh")
            (cand (stemOf "job.sh") (extOf "job.sh") m) = true :=
  resolve_first_unused_suffix.1 (fun s => s == "job.sh" || s == "job_1.sh")
    5 "job.sh" "job_2.sh" (by decide)

/-- C10 counterexample: for the trailing-dot input `"abc."` with `"abc."`
existing, the claim predicts the collision suffix lands after the trailing
dot (`"abc._1"`); the code returns `"abc_1."` — the suffix goes before the
dot, because the extension slice `temp_file_name[(i_dot - l):]` is `"."`,
not the empty string. -/
theorem trailing_dot_suffix_cex :
    createTempFileName (fun s => s == "abc.") 3 "abc." = .ok "abc_1."
      ∧ ("abc_1." : String) ≠ "abc._1" := by
  exact ⟨by decide, by decide⟩

/-- C10 (amended): for an input ending in `'.'`, the extension is the
trailing `"."` itself and the stem is everything before it, so any collision
suffix is inserted between them — immediately before the final dot, as in
`"report."` resolving to `"report_1."` when `"report."` exists. -/
theorem trailing_dot_extension :
    (∀ t : List Char, extOf (t ++ ['.']).asString = "."
        ∧ stemOf (t ++ ['.']).asString = t.asString)
    ∧ createTempFileName (fun s => s == "report.") 3 "report." = .ok "report_1." :=
  ⟨fun t => ⟨extOf_concat_dot t, stemOf_concat_dot t⟩, by decide⟩

/-- C5: batch mode with environment `env1`, command `python`, script
`train.py`, arguments `{epochs: 10}` and directive `--time=01:00:00`
(temp file `job.sh`, no file pre-existing) writes exactly the expected
script text, whose lines contain, in order: the shebang, the `#SBATCH`
directive, the activation line, the invocation line, the deactivation line. -/
theorem batch_script_scenario :
    build_sbatch (fun _ => false) 1 ⟨false, "env1", "python", "train.py", "job.sh"⟩
        ["--time=01:00:00"] [("epochs", PyVal.int 10)]
      = .ok (⟨false, "env1", "python", "train.py", "job.sh"⟩,
          [Effect.wroteFile "job.sh"
            "#!/bin/bash\n\n#SBATCH --time=01:00:00\n\nsource activate env1\npython train.py --epochs=10\nsource deactivate env1\n"])
    ∧ List.Sublist
        ["#!/bin/bash", "#SBATCH --time=01:00:00", "source activate env1",
         "python train.py --epochs=10", "source deactivate env1"]
        (linesOf (build_sbatchContent ⟨false, "env1", "python", "train.py", "job.sh"⟩
            ["--time=01:00:00"] [("epochs", PyVal.int 10)])) := by
  exact ⟨by decide, by decide⟩

/-- C6: `build_args` emits, entry by entry in insertion order with no
sorting, deduplication or escaping, one space-prefixed fragment per
emitting entry (`fragmentOfEntry` restates the spec's per-entry rule), and
on the spec's five examples produces exactly the predicted strings. -/
theorem build_args_serialization :
    (∀ l : List (String × PyVal),
        build_args l = concatStrs (l.map fun p => fragmentOfEntry p.1 p.2))
    ∧ build_args [("verbose", PyVal.bool true)] = " --verbose"
    ∧ build_args [("verbose", PyVal.bool false)] = ""
    ∧ build_args [("name", PyVal.str "x")] = " --name=x"
    ∧ build_args [("name", PyVal.str "")] = ""
    ∧ build_args [("count", PyVal.int 5)] = " --count=5" := by
  refine ⟨fun l => ?_, by decide, by decide, by decide, by decide, by decide⟩
  have h := build_args_foldl l ""
  simpa [build_args] using h

/-- C7: when the command contains the substring `ipython`, the serialized
argument string is prefixed with exactly one extra ` --`, and otherwise it
is used as is; for command `ipython`, script `nb.py` and arguments
`{x: "1"}` the invocation line contains `-- --x=1`. -/
theorem ipython_quirk :
    (∀ (cmd : String) (args : List (String × PyVal)),
        pyIn "ipython" cmd = true → str_args cmd args = " --" ++ build_args args)
    ∧ (∀ (cmd : String) (args : List (String × PyVal)),
        pyIn "ipython" cmd = false → str_args cmd args = build_args args)
    ∧ containsSeq
        (invocationLine ⟨false, "env1", "ipython", "nb.py", "job.sh"⟩
          [("x", PyVal.str "1")]).toList
        "-- --x=1".toList = true := by
  refine ⟨fun cmd args h => ?_, fun cmd args h => ?_, by decide⟩
  · simp [str_args, h]
  · simp [str_args, h]

/-- Witness for C7 at command `ipython` and arguments `{x: "1"}`. -/
theorem ipython_quirk_witness :
    str_args "ipython" [("x", PyVal.str "1")]
      = " --" ++ build_args [("x", PyVal.str "1")] :=
  ipython_quirk.1 "ipython" [("x", PyVal.str "1")] (by decide)

/-- C9: the interactive launch command is `srun`, followed by each scheduler
directive verbatim in sequence order, each preceded by one space, followed
by the trailing interactive-shell request ` --pty bash`; and the interactive
script's writes are the batch script's writes with the directive lines and
their separator blank line removed (same shebang, same body). -/
theorem interactive_command_and_body :
    (∀ sOpt : List String,
        command_srun sOpt
          = "srun" ++ concatStrs (sOpt.map fun opt => " " ++ opt) ++ " --pty bash")
    ∧ (∀ (r : RunOpt) (sOpt : List String) (args : List (String × PyVal)),
        build_srunWrites r args
          = "#!/bin/bash\n\n" :: (build_sbatchWrites r sOpt args).drop (2 + sOpt.length))
    ∧ command_srun ["--time=01:00:00"] = "srun --time=01:00:00 --pty bash" := by
  refine ⟨fun sOpt => ?_, fun r sOpt args => build_srunWrites_eq r sOpt args, by decide⟩
  unfold command_srun
  rw [command_srun_foldl]

/-- C1 (amended): in batch mode the submission command is spawned with only
stdout redirected to a pipe — stderr is not captured, it stays inherited by
the child — and after the child exits the captured stdout is decoded,
stripped and printed unconditionally, even when empty (producing a blank
line); the stderr-printing branch never runs because `communicate()` returns
`None` for the uncaptured stream. -/
theorem batch_mode_effects (fs : String → Bool) (fuel : Nat)
    (childOut childErr : String) (r : RunOpt) (sOpt : List String)
    (args : List (String × PyVal)) (tf : String)
    (hmode : r.interactive = false)
    (hres : createTempFileName fs fuel r.temp_file = .ok tf) :
    launch_exp fs fuel childOut childErr r sOpt args
      = .ok [Effect.wroteFile tf (build_sbatchContent { r with temp_file := tf } sOpt args),
             Effect.spawned (pySplit ("sbatch " ++ tf)) true false,
             Effect.printedOut (pyStrip childOut)] := by
  unfold launch_exp build_sbatch
  rw [hmode, hres]
  simp [communicate]

/-- Witness for C1's amended theorem on a concrete batch launch. -/
theorem batch_mode_effects_witness :
    launch_exp (fun _ => false) 1 "out" "err"
        ⟨false, "env1", "python", "train.py", "job.sh"⟩ [] []
      = .ok [Effect.wroteFile "job.sh"
              (build_sbatchContent ⟨false, "env1", "python", "train.py", "job.sh"⟩ [] []),
             Effect.spawned (pySplit ("sbatch " ++ "job.sh")) true false,
             Effect.printedOut (pyStrip "out")] :=
  batch_mode_effects (fun _ => false) 1 "out" "err"
    ⟨false, "env1", "python", "train.py", "job.sh"⟩ [] [] "job.sh" rfl (by decide)

/-- C1 counterexample: batch launch with an empty child stdout and `boom` on
the child's stderr.  The trace shows the spawn pipes stdout but not stderr
(so the claim's "capturing both streams" fails), a blank line is printed even
though the captured stdout is empty (so "prints exactly when non-empty"
fails), and nothing is ever relayed to stderr by the parent. -/
theorem batch_mode_stderr_not_captured_cex :
    launch_exp (fun _ => false) 1 "" "boom"
        ⟨false, "env1", "python", "train.py", "job.sh"⟩ [] []
      = .ok batchEmptyOutTrace
    ∧ Effect.printedOut "" ∈ batchEmptyOutTrace
    ∧ Effect.printedErr "boom" ∉ batchEmptyOutTrace
    ∧ Effect.spawned ["sbatch", "job.sh"] true true ∉ batchEmptyOutTrace
    ∧ Effect.spawned ["sbatch", "job.sh"] true false ∈ batchEmptyOutTrace := by
  exact ⟨by decide, by decide, by decide, by decide, by decide⟩

/-- C8: the claim (and the spec) say the interactive child inherits the
caller's stdout directly, not captured via a pipe.  The code instead calls
`Popen(command_srun.split(), stdout=subprocess.PIPE)`: the trace of a
concrete interactive launch shows the notice printed, then the `srun`
command spawned with stdout piped (`stdoutPiped = true`), its captured
output silently discarded — the claim is right about the intent, the code
pipes the stream it should inherit. -/
theorem interactive_stdout_piped :
    launch_exp (fun _ => false) 1 "shown-nowhere" "x"
        ⟨true, "env1", "python", "train.py", "job.sh"⟩ ["--time=01:00:00"] []
      = .ok [Effect.wroteFile "job.sh"
              "#!/bin/bash\n\nsource activate env1\npython train.py\nsource deactivate env1\n",
             Effect.printedOut "Interactive job to launch: job.sh\n",
             Effect.spawned ["srun", "--time=01:00:00", "--pty", "bash"] true false] := by
  decide

end Sbatch
